import Mathlib

/-!
Verification of lms/djangoapps/instructor_task/tasks_helper.py.

The development shallowly embeds the update-task runner family
(perform_module_state_update, perform_enrolled_student_update,
run_update_task, BaseInstructorTask.on_success) together with the
per-target visitors (reset_attempts_module_state), and proves the
specified properties about the embedded definitions.

Conventions of the embedding:
- Python dicts holding the task progress are Lean structures.
- Wall-clock durations are abstracted by a function giving the value of
  duration_ms at each publication index; no claim depends on time.
- Exceptions are modelled by Except with an explicit error type PyErr.
- Calls to the external progress channel (update_state) and to the
  per-target update function are recorded in an event trace, so that
  ordering and publication properties can be stated.
- External persistence (InstructorTask.objects.get, save_now) is modelled
  by passing the record in and returning the updated record; save_now is
  assumed not to fail (it lives in instructor_task/models.py, which is not
  part of the sources).
-/

namespace TasksHelper

/-- Module constant UPDATE_STATUS_SUCCEEDED (tasks_helper.py line 41). -/
def UPDATE_STATUS_SUCCEEDED : String := "succeeded"

/-- Module constant UPDATE_STATUS_FAILED (line 42). -/
def UPDATE_STATUS_FAILED : String := "failed"

/-- Module constant UPDATE_STATUS_SKIPPED (line 43). -/
def UPDATE_STATUS_SKIPPED : String := "skipped"

/-- Celery state SUCCESS, written to InstructorTask.task_state. -/
def SUCCESS : String := "SUCCESS"

/-- Celery state FAILURE, written to InstructorTask.task_state. -/
def FAILURE : String := "FAILURE"

/-- State PROGRESS from instructor_task.models, used for progress publications. -/
def PROGRESS : String := "PROGRESS"

/-- A Python exception object: its class name, its message, and the
formatted traceback that format_exc would produce for it. -/
structure PyExc where
  kind : String
  message : String
  traceback : String
deriving Repr, DecidableEq

/-- Exceptions that arise in the embedded code paths. -/
inductive PyErr
  /-- UpdateProblemModuleStateError raised with the given message. -/
  | updateProblemModuleStateError (message : String)
  /-- NameError: evaluation of an undefined name. -/
  | nameError (name : String)
  /-- Any exception propagating out of a caller-supplied function. -/
  | exc (e : PyExc)
deriving Repr, DecidableEq

/-- Exception class name, as recorded in a failure output. -/
def PyErr.kind : PyErr → String
  | PyErr.updateProblemModuleStateError _ => "UpdateProblemModuleStateError"
  | PyErr.nameError _ => "NameError"
  | PyErr.exc e => e.kind

/-- Exception message, as recorded in a failure output. -/
def PyErr.message : PyErr → String
  | PyErr.updateProblemModuleStateError m => m
  | PyErr.nameError n => "name " ++ n ++ " is not defined"
  | PyErr.exc e => e.message

/-- Traceback string produced by format_exc for the exception. -/
def PyErr.traceback : PyErr → String
  | PyErr.updateProblemModuleStateError m => m
  | PyErr.nameError n => "name " ++ n ++ " is not defined"
  | PyErr.exc e => e.traceback

/-- The progress dict built by get_task_progress inside
perform_module_state_update (lines 374-385). -/
structure TaskProgress where
  action_name : String
  attempted : Nat
  succeeded : Nat
  skipped : Nat
  failed : Nat
  total : Nat
  duration_ms : Nat
deriving Repr, DecidableEq

/-- The four counters of the main loop (num_attempted, num_succeeded,
num_skipped, num_failed; lines 368-371). -/
structure Counters where
  attempted : Nat
  succeeded : Nat
  skipped : Nat
  failed : Nat
deriving Repr, DecidableEq

/-- get_task_progress (lines 374-385): snapshot of the current counters,
with total fixed and duration_ms read from the clock at the current
number of attempts. -/
def get_task_progress (action_name : String) (num_total : Nat) (dur : Nat → Nat)
    (c : Counters) : TaskProgress :=
  { action_name := action_name
    attempted := c.attempted
    succeeded := c.succeeded
    skipped := c.skipped
    failed := c.failed
    total := num_total
    duration_ms := dur c.attempted }

/-- Observable events of one run of the main loop: the update function is
invoked on the target with the given zero-based enumeration index, or a
progress snapshot is published to the progress channel
(update_state(state=PROGRESS, meta=...)). -/
inductive RunEvent
  | visit (idx : Nat)
  | publish (p : TaskProgress)
deriving Repr, DecidableEq

/-- The progress snapshots published in an event trace, in order. -/
def publications (evs : List RunEvent) : List TaskProgress :=
  evs.filterMap (fun e => match e with
    | RunEvent.publish p => some p
    | RunEvent.visit _ => none)

/-- The target indices visited in an event trace, in order. -/
def visits (evs : List RunEvent) : List Nat :=
  evs.filterMap (fun e => match e with
    | RunEvent.visit i => some i
    | RunEvent.publish _ => none)

/-- What one call of the caller-supplied update_fcn does: return a status
value (a string), or raise an exception. -/
inductive UpdateResult
  | ret (status : String)
  | raise (e : PyExc)
deriving Repr, DecidableEq

/-- One enumerated StudentModule target, described by the behaviour of the
update function on it: the result of the call, and whether the call
deletes the target row from the live StudentModule table (as the delete
visitor delete_problem_module_state does). -/
structure TargetBehavior where
  result : UpdateResult
  deletesRow : Bool
deriving Repr, DecidableEq

/-- Whether a status string is one of the three classified update statuses
(the conditions of lines 395-402). -/
def classified (s : String) : Bool :=
  s = UPDATE_STATUS_SUCCEEDED || s = UPDATE_STATUS_FAILED || s = UPDATE_STATUS_SKIPPED

/-- Whether the update function returns a classified status on this target
(so the loop continues past it). -/
def classifiedRet (t : TargetBehavior) : Bool :=
  match t.result with
  | UpdateResult.ret s => classified s
  | UpdateResult.raise _ => false

/-- The status string a target returns (empty for a raised exception);
only used beneath a classifiedRet guard. -/
def retStatus : UpdateResult → String
  | UpdateResult.ret s => s
  | UpdateResult.raise _ => ""

/-- Counter increments of one classified loop iteration (lines 390-402):
num_attempted grows by one, and exactly one of num_succeeded, num_failed,
num_skipped grows by one according to the returned status. -/
def statusCounters (c : Counters) (s : String) : Counters :=
  if s = UPDATE_STATUS_SUCCEEDED then
    { c with attempted := c.attempted + 1, succeeded := c.succeeded + 1 }
  else if s = UPDATE_STATUS_FAILED then
    { c with attempted := c.attempted + 1, failed := c.failed + 1 }
  else
    { c with attempted := c.attempted + 1, skipped := c.skipped + 1 }

/-- The main loop of perform_module_state_update (lines 389-410), acting on
the remaining targets. State: the counters, the number of rows still live
in the StudentModule table (visits may delete rows), and the current value
of the task_progress variable. Returns the event trace of the remaining
iterations, the final live row count, and either the raised exception or
the task_progress value returned at line 410. num_total is the count taken
before iteration and is never recomputed. -/
def moduleUpdateGo (an : String) (num_total : Nat) (dur : Nat → Nat) :
    List TargetBehavior → Counters → Nat → TaskProgress →
    List RunEvent × Nat × Except PyErr TaskProgress
  | [], _c, live, last => ([], live, Except.ok last)
  | t :: rest, c, live, _last =>
    let idx := c.attempted
    let live2 := if t.deletesRow then live - 1 else live
    match t.result with
    | UpdateResult.raise e =>
        ([RunEvent.visit idx], live2, Except.error (PyErr.exc e))
    | UpdateResult.ret s =>
      if classified s then
        let c2 := statusCounters c s
        let p := get_task_progress an num_total dur c2
        let out := moduleUpdateGo an num_total dur rest c2 live2 p
        (RunEvent.visit idx :: RunEvent.publish p :: out.1, out.2.1, out.2.2)
      else
        ([RunEvent.visit idx], live2,
          Except.error (PyErr.updateProblemModuleStateError
            ("Unexpected update_status returned: " ++ s)))

/-- The main loop of perform_module_state_update (lines 367-410): counters
start at zero, num_total is the count of the fully filtered collection
taken before iteration begins (line 372), an initial snapshot is published
(lines 387-388), then each target is visited in enumeration order and a
snapshot is published after each classified outcome. The live row count
starts equal to the enumerated count and shrinks when a visit deletes its
row; it is never read by get_task_progress. -/
def perform_module_state_update_loop (an : String) (dur : Nat → Nat)
    (targets : List TargetBehavior) :
    List RunEvent × Nat × Except PyErr TaskProgress :=
  let num_total := targets.length
  let c0 : Counters := { attempted := 0, succeeded := 0, skipped := 0, failed := 0 }
  let p0 := get_task_progress an num_total dur c0
  let out := moduleUpdateGo an num_total dur targets c0 num_total p0
  (RunEvent.publish p0 :: out.1, out.2.1, out.2.2)

/-- The progress dict built by get_task_progress inside
perform_enrolled_student_update (lines 268-277); it has an updated count
instead of the succeeded/skipped/failed triple. -/
structure EnrolledProgress where
  action_name : String
  attempted : Nat
  updated : Nat
  total : Nat
  duration_ms : Nat
deriving Repr, DecidableEq

/-- get_task_progress of perform_enrolled_student_update (lines 268-277). -/
def get_enrolled_task_progress (an : String) (num_total : Nat) (dur : Nat → Nat)
    (attempted updated : Nat) : EnrolledProgress :=
  { action_name := an
    attempted := attempted
    updated := updated
    total := num_total
    duration_ms := dur attempted }

/-- The main loop of perform_enrolled_student_update (lines 281-300), on
the remaining enrolled students, each described by the boolean the update
function returns for them. After each student the progress is recomputed
and published; when num_attempted reaches 1000 the loop breaks (the
temporary hack at lines 295-298). Returns the published snapshots of the
remaining iterations and the final value of task_progress. -/
def enrolledUpdateGo (an : String) (num_total : Nat) (dur : Nat → Nat) :
    List Bool → Nat → Nat → EnrolledProgress →
    List EnrolledProgress × EnrolledProgress
  | [], _attempted, _updated, last => ([], last)
  | b :: rest, attempted, updated, _last =>
    let a2 := attempted + 1
    let u2 := if b then updated + 1 else updated
    let p := get_enrolled_task_progress an num_total dur a2 u2
    if a2 = 1000 then
      ([p], p)
    else
      let out := enrolledUpdateGo an num_total dur rest a2 u2 p
      (p :: out.1, out.2)

/-- The counting loop of perform_enrolled_student_update (lines 263-300):
num_total is the count of the filtered collection, an initial snapshot is
published, then each enrolled student is visited in order. Returns all
published snapshots and the returned task_progress (line 300). -/
def perform_enrolled_student_update_loop (an : String) (dur : Nat → Nat)
    (updates : List Bool) : List EnrolledProgress × EnrolledProgress :=
  let num_total := updates.length
  let p0 := get_enrolled_task_progress an num_total dur 0 0
  let out := enrolledUpdateGo an num_total dur updates 0 0 p0
  (p0 :: out.1, out.2)

/-- A parsed problem-state dict (json.loads of a StudentModule state blob),
as an association list from field names to integer values; only integer
fields matter to the embedded visitors. -/
def PState : Type := List (String × Int)

instance : DecidableEq PState := by
  unfold PState
  infer_instance

/-- Dict membership and lookup: the value of field k, if present. -/
def pstate_get (k : String) (ps : PState) : Option Int :=
  (List.find? (fun kv => kv.1 == k) ps).map (fun kv => kv.2)

/-- Dict assignment: set field k to v (first occurrence wins, as in a
Python dict where keys are unique). -/
def pstate_set (k : String) (v : Int) : PState → PState
  | [] => [(k, v)]
  | kv :: rest => if kv.1 = k then (k, v) :: rest else kv :: pstate_set k v rest

/-- A StudentModule row as the reset-attempts visitor sees it: the state
column, parsed (none models an empty or null state blob, which is falsy at
line 616). The student and course columns do not influence the visitor
logic and are elided. -/
structure StudentModuleRec where
  state : Option PState
deriving DecidableEq

/-- One call of the tracking function made by _get_track_function_for_task:
the event type and the event-info payload. -/
structure TrackEvent where
  event_type : String
  event_info : List (String × Int)
deriving Repr, DecidableEq

/-- Model of reset_attempts_module_state (lines 607-631): parse the state
(empty dict when the blob is falsy); if it has an attempts field whose
value is greater than zero, set attempts to zero, save, emit one
problem_reset_attempts tracking event with the old and new counts, and
return succeeded; otherwise return skipped without mutating or emitting.
Returns the (possibly updated) module row, whether save() was called, the
emitted tracking events, and the update status. -/
def reset_attempts_module_state (sm : StudentModuleRec) :
    StudentModuleRec × Bool × List TrackEvent × String :=
  let problem_state : PState := match sm.state with
    | some ps => ps
    | none => []
  match pstate_get "attempts" problem_state with
  | some old_number_of_attempts =>
    if old_number_of_attempts > 0 then
      let ps2 := pstate_set "attempts" 0 problem_state
      ({ sm with state := some ps2 }, true,
        [{ event_type := "problem_reset_attempts"
           event_info := [("old_attempts", old_number_of_attempts), ("new_attempts", 0)] }],
        UPDATE_STATUS_SUCCEEDED)
    else
      (sm, false, [], UPDATE_STATUS_SKIPPED)
  | none => (sm, false, [], UPDATE_STATUS_SKIPPED)

/-- The serialized task_output column of an InstructorTask row: a success
progress dict, a failure dict, or whatever the row held before this core
wrote to it. -/
inductive TaskOutput
  | success (p : TaskProgress)
  | failure (exception : String) (message : String) (traceback : String)
  | raw (s : String)
deriving Repr, DecidableEq

/-- Modelled from the spec: InstructorTask.create_output_for_success lives
in instructor_task/models.py, which is not among the sources; per the spec
it serializes the progress dict into the task_output column. -/
def create_output_for_success (p : TaskProgress) : TaskOutput :=
  TaskOutput.success p

/-- Modelled from the spec: the bound to which the stored traceback is
truncated by InstructorTask.create_output_for_failure (the spec requires a
bounded length; instructor_task/models.py is not among the sources). -/
def TASK_OUTPUT_TRACEBACK_BOUND : Nat := 1024

/-- Truncate a string to at most n characters. -/
def truncateString (n : Nat) (s : String) : String :=
  String.mk (s.data.take n)

/-- Modelled from the spec: InstructorTask.create_output_for_failure lives
in instructor_task/models.py, which is not among the sources; per the spec
it records the exception kind, its message, and the traceback truncated to
a bounded length. -/
def create_output_for_failure (e : PyErr) : TaskOutput :=
  TaskOutput.failure e.kind e.message
    (truncateString TASK_OUTPUT_TRACEBACK_BOUND e.traceback)

/-- An InstructorTask row as run_update_task uses it: the claimed task id,
the course id, the parsed task_input fields problem_url and student
(task_input.get returns none for a missing key), the task_state column,
the task_output column, and the subtasks list read by on_success. -/
structure InstructorTaskRecord where
  task_id : String
  course_id : String
  problem_url : Option String
  student : Option String
  task_state : String
  task_output : TaskOutput
  subtasks : List String
deriving Repr, DecidableEq

/-- Python str() of an optional string, as interpolated into messages. -/
def optStr : Option String → String
  | some s => s
  | none => "None"

/-- A double-quoted rendering of a string, as the format strings produce. -/
def quoted (s : String) : String :=
  "\"" ++ s ++ "\""

/-- The log-message prefix built at lines 451-452 from the entry. -/
def task_info_string (entry : InstructorTaskRecord) : String :=
  "task " ++ quoted entry.task_id ++ ": course " ++ quoted entry.course_id
    ++ " problem " ++ quoted (optStr entry.problem_url)

/-- The identity-mismatch message built at lines 463-464. -/
def mismatch_message (actual_id : String) (task_info : String) : String :=
  "Requested task did not match actual task " ++ quoted actual_id ++ ": " ++ task_info

/-- Model of run_update_task (lines 416-493) after the entry has been
loaded. request_task_id is the id of the currently executing task
(_get_current_task().request.id); visit is the visitor pipeline
(visit_fcn) applied to the course id and the parsed input fields, giving
its event trace, its final live row count, and its result. If the claimed
task id differs from the executing id, an UpdateProblemModuleStateError is
raised before the visitor runs; any exception is written to the entry as a
failure output with state FAILURE and re-raised; on a normal visitor
return the progress is written as a success output with state SUCCESS and
returned. The function returns the saved entry, the events of the run,
and the returned value or re-raised exception. -/
def run_update_task (request_task_id : String) (entry : InstructorTaskRecord)
    (visit : String → Option String → Option String →
      List RunEvent × Nat × Except PyErr TaskProgress) :
    InstructorTaskRecord × List RunEvent × Except PyErr TaskProgress :=
  let task_id := entry.task_id
  if task_id ≠ request_task_id then
    let message := mismatch_message request_task_id (task_info_string entry)
    let e := PyErr.updateProblemModuleStateError message
    ({ entry with task_output := create_output_for_failure e, task_state := FAILURE },
      [], Except.error e)
  else
    match visit entry.course_id entry.problem_url entry.student with
    | (evs, _live, Except.error e) =>
      ({ entry with task_output := create_output_for_failure e, task_state := FAILURE },
        evs, Except.error e)
    | (evs, _live, Except.ok task_progress) =>
      ({ entry with
          task_output := create_output_for_success task_progress
          task_state := SUCCESS },
        evs, Except.ok task_progress)

/-- Model of BaseInstructorTask.on_success (lines 62-97): if no subtasks
were defined on the entry, write the success output and the SUCCESS state
and save; otherwise leave the entry alone (the subtasks handle task_state
themselves). -/
def on_success (entry : InstructorTaskRecord) (task_progress : TaskProgress) :
    InstructorTaskRecord :=
  if entry.subtasks.length = 0 then
    { entry with
        task_output := create_output_for_success task_progress
        task_state := SUCCESS }
  else
    entry

/-- Model of the entry of perform_module_state_update (lines 337-344): at
line 340 the function rebinds module_state_key from task_input, but the
name task_input is not defined in the function (it is a local of
run_update_task and run_main_task only), so every call raises NameError
before the student lookup at lines 352-359 and before the loop at lines
367-410 can run. -/
def perform_module_state_update_entry (_course_id : String)
    (_module_state_key : Option String) (_student_identifier : Option String) :
    Except PyErr Unit :=
  Except.error (PyErr.nameError "task_input")

/-- The student lookup the runner performs once line 340 is repaired, as
written at lines 352-359: an email lookup when the identifier contains an
at-sign, else a username lookup. -/
inductive StudentLookup
  | byEmail (s : String)
  | byUsername (s : String)
deriving Repr, DecidableEq

/-- Resolution of the optional student identifier (lines 352-359): none
when no identifier is supplied, an email lookup when it contains an
at-sign (the Python membership test at line 356, expressed on the
character list of the identifier), a username lookup otherwise. -/
def resolve_student (student_identifier : Option String) : Option StudentLookup :=
  match student_identifier with
  | none => none
  | some ident =>
    if '@' ∈ ident.data then some (StudentLookup.byEmail ident)
    else some (StudentLookup.byUsername ident)

/-! Theorems. -/

/-- Setting a field of a problem-state dict makes a later lookup of that
field return the new value. -/
theorem pstate_get_set (k : String) (v : Int) (ps : PState) :
    pstate_get k (pstate_set k v ps) = some v := by
  induction ps with
  | nil => simp [pstate_get, pstate_set, List.find?]
  | cons kv rest ih =>
    by_cases h : kv.1 = k
    · simp [pstate_get, pstate_set, h, List.find?]
    · simpa [pstate_get, pstate_set, h, List.find?] using ih

/-- C9: the reset-attempts visitor, on a state whose attempts field is
positive, returns succeeded, persists the state with attempts set to
zero, and emits exactly one tracking event carrying the old and new
counts; on a state whose attempts field is zero or absent, it returns
skipped with no save and no event; an absent state blob parses to the
empty dict and is likewise skipped. -/
theorem reset_attempts_module_state_spec (sm : StudentModuleRec) (ps : PState) (old : Int) :
    (sm.state = some ps → pstate_get "attempts" ps = some old → 0 < old →
      reset_attempts_module_state sm =
        ({ sm with state := some (pstate_set "attempts" 0 ps) }, true,
          [{ event_type := "problem_reset_attempts"
             event_info := [("old_attempts", old), ("new_attempts", 0)] }],
          UPDATE_STATUS_SUCCEEDED) ∧
      pstate_get "attempts" (pstate_set "attempts" 0 ps) = some 0) ∧
    (sm.state = some ps → pstate_get "attempts" ps = some 0 →
      reset_attempts_module_state sm = (sm, false, [], UPDATE_STATUS_SKIPPED)) ∧
    (sm.state = some ps → pstate_get "attempts" ps = none →
      reset_attempts_module_state sm = (sm, false, [], UPDATE_STATUS_SKIPPED)) ∧
    (sm.state = none →
      reset_attempts_module_state sm = (sm, false, [], UPDATE_STATUS_SKIPPED)) := by
  refine ⟨?_, ?_, ?_, ?_⟩
  · intro hst hget hpos
    refine ⟨?_, pstate_get_set "attempts" 0 ps⟩
    simp [reset_attempts_module_state, hst, hget, hpos]
  · intro hst hget
    simp [reset_attempts_module_state, hst, hget]
  · intro hst hget
    simp [reset_attempts_module_state, hst, hget]
  · intro hst
    simp [reset_attempts_module_state, hst, pstate_get, List.find?]

/-- Example module row with three recorded attempts. -/
def resetExample : StudentModuleRec := { state := some [("attempts", 3)] }

/-- Witness for C9: on the concrete state with attempts three, the visitor
succeeds, zeroes the field, and emits the single expected event. -/
theorem reset_attempts_module_state_spec_witness :
    resetExample.state = some [("attempts", 3)] ∧
    reset_attempts_module_state resetExample =
      ({ resetExample with state := some (pstate_set "attempts" 0 [("attempts", 3)]) }, true,
        [{ event_type := "problem_reset_attempts"
           event_info := [("old_attempts", 3), ("new_attempts", 0)] }],
        UPDATE_STATUS_SUCCEEDED) :=
  ⟨rfl, ((reset_attempts_module_state_spec resetExample [("attempts", 3)] 3).1 rfl
    (by decide) (by decide)).1⟩

/-- C10: BaseInstructorTask.on_success writes the SUCCESS state and the
success output to the record only when the subtasks list of the record is
empty; when any subtasks are defined it leaves task_state and task_output
unchanged. -/
theorem on_success_subtasks_frame (entry : InstructorTaskRecord) (p : TaskProgress) :
    (entry.subtasks = [] →
      (on_success entry p).task_state = SUCCESS ∧
      (on_success entry p).task_output = create_output_for_success p) ∧
    (entry.subtasks ≠ [] →
      (on_success entry p).task_state = entry.task_state ∧
      (on_success entry p).task_output = entry.task_output) := by
  constructor
  · intro h
    simp [on_success, h]
  · intro h
    simp [on_success, h]

/-- Example record that has one subtask defined. -/
def subtaskEntry : InstructorTaskRecord :=
  { task_id := "task-9"
    course_id := "course-9"
    problem_url := none
    student := none
    task_state := PROGRESS
    task_output := TaskOutput.raw "{}"
    subtasks := ["sub-1"] }

/-- Example progress value. -/
def subtaskProgress : TaskProgress :=
  { action_name := "graded", attempted := 1, succeeded := 1, skipped := 0
    failed := 0, total := 1, duration_ms := 5 }

/-- Witness for C10: with a subtask defined, on_success leaves
task_state and task_output of the record unchanged. -/
theorem on_success_subtasks_frame_witness :
    subtaskEntry.subtasks ≠ [] ∧
    (on_success subtaskEntry subtaskProgress).task_state = subtaskEntry.task_state ∧
    (on_success subtaskEntry subtaskProgress).task_output = subtaskEntry.task_output :=
  ⟨by decide, (on_success_subtasks_frame subtaskEntry subtaskProgress).2 (by decide)⟩

/-- C7: evaluating the runner at a run whose student identifier contains
an at-sign: line 340 reads the name task_input, which is undefined in
perform_module_state_update, so the call raises NameError before the
email lookup of lines 352-359 (described by resolve_student) can run. -/
theorem perform_module_state_update_entry_name_error :
    perform_module_state_update_entry "course-1" none (some "student@example.com") =
      Except.error (PyErr.nameError "task_input") ∧
    resolve_student (some "student@example.com") =
      some (StudentLookup.byEmail "student@example.com") := by
  constructor
  · rfl
  · simp [resolve_student]

set_option maxRecDepth 100000 in
/-- C4: the enrolled-student loop stops early with no fatal error: with
1001 enrolled students (update function always true), the temporary
debugging break at lines 295-298 ends the loop after 1000 attempts, so
the final progress has attempted 1000 while total is 1001 and the last
target is never visited. -/
theorem perform_enrolled_student_update_break_at_1000 :
    (perform_enrolled_student_update_loop "graded" (fun _ => 0)
        (List.replicate 1001 true)).2.attempted = 1000 ∧
    (perform_enrolled_student_update_loop "graded" (fun _ => 0)
        (List.replicate 1001 true)).2.total = 1001 := by
  decide

/-- One classified iteration raises the attempted counter by exactly one. -/
theorem statusCounters_attempted (c : Counters) (s : String) :
    (statusCounters c s).attempted = c.attempted + 1 := by
  unfold statusCounters
  split_ifs <;> rfl

/-- One classified iteration preserves the counter balance: attempted
stays the sum of succeeded, failed and skipped. -/
theorem statusCounters_sum (c : Counters) (s : String)
    (h : c.attempted = c.succeeded + c.failed + c.skipped) :
    (statusCounters c s).attempted =
      (statusCounters c s).succeeded + (statusCounters c s).failed +
        (statusCounters c s).skipped := by
  unfold statusCounters
  split_ifs <;> simp <;> omega

/-- Every snapshot published by the remaining loop iterations is balanced,
bounded by num_total, and reports exactly num_total as its total, given
that the incoming counters are balanced and can still account for the
remaining targets. -/
theorem moduleUpdateGo_publications (an : String) (num_total : Nat) (dur : Nat → Nat) :
    ∀ (rest : List TargetBehavior) (c : Counters) (live : Nat) (last : TaskProgress),
      c.attempted = c.succeeded + c.failed + c.skipped →
      c.attempted + rest.length ≤ num_total →
      ∀ p ∈ publications (moduleUpdateGo an num_total dur rest c live last).1,
        p.attempted = p.succeeded + p.failed + p.skipped ∧
        p.attempted ≤ p.total ∧ p.total = num_total := by
  intro rest
  induction rest with
  | nil =>
    intro c live last _h1 _h2 p hp
    simp [moduleUpdateGo, publications] at hp
  | cons t ts ih =>
    intro c live last h1 h2 p hp
    cases ht : t.result with
    | raise e =>
      simp [moduleUpdateGo, ht, publications] at hp
    | ret s =>
      by_cases hc : classified s
      · simp only [moduleUpdateGo, ht, hc, if_pos, publications, List.filterMap_cons] at hp
        simp only [List.length_cons] at h2
        rcases List.mem_cons.mp hp with hp | hp
        · subst hp
          refine ⟨?_, ?_, rfl⟩
          · simpa [get_task_progress] using statusCounters_sum c s h1
          · simp only [get_task_progress, statusCounters_attempted]
            omega
        · refine ih (statusCounters c s)
            (if t.deletesRow = true then live - 1 else live)
            (get_task_progress an num_total dur (statusCounters c s))
            (statusCounters_sum c s h1) ?_ p ?_
          · rw [statusCounters_attempted]
            omega
          · simpa [publications] using hp
      · simp [moduleUpdateGo, ht, hc, publications] at hp

/-- C1: at every progress publication point of the module-state update
loop (the initial publication and the one after each visited target), the
published snapshot is balanced (attempted equals succeeded plus failed
plus skipped), attempted never exceeds total, and the published total is
the pre-iteration count of the enumerated collection, fixed even when
visits delete rows from the live collection. -/
theorem perform_module_state_update_publication_invariant (an : String) (dur : Nat → Nat)
    (targets : List TargetBehavior) (p : TaskProgress)
    (hp : p ∈ publications (perform_module_state_update_loop an dur targets).1) :
    p.attempted = p.succeeded + p.failed + p.skipped ∧
    p.attempted ≤ p.total ∧ p.total = targets.length := by
  unfold perform_module_state_update_loop at hp
  simp only [publications, List.filterMap_cons] at hp
  rcases List.mem_cons.mp hp with hp | hp
  · subst hp
    simp [get_task_progress]
  · refine moduleUpdateGo_publications an targets.length dur targets
      { attempted := 0, succeeded := 0, skipped := 0, failed := 0 }
      targets.length
      (get_task_progress an targets.length dur
        { attempted := 0, succeeded := 0, skipped := 0, failed := 0 })
      rfl (by simp) p ?_
    simpa [publications] using hp

/-- Concrete targets for the publication-invariant witness: one succeeded
target followed by one that deletes its row. -/
def invariantTargets : List TargetBehavior :=
  [{ result := UpdateResult.ret "succeeded", deletesRow := false },
   { result := UpdateResult.ret "succeeded", deletesRow := true }]

/-- Witness for C1: the snapshot published after the second (deleting)
target of the concrete run is balanced and still reports the
pre-iteration total of two. -/
theorem perform_module_state_update_publication_invariant_witness :
    ({ action_name := "reset", attempted := 2, succeeded := 2, skipped := 0,
       failed := 0, total := 2, duration_ms := 0 } : TaskProgress) ∈
      publications (perform_module_state_update_loop "reset" (fun _ => 0) invariantTargets).1 ∧
    (2 : Nat) = 2 + 0 + 0 ∧ (2 : Nat) ≤ 2 ∧
    ({ action_name := "reset", attempted := 2, succeeded := 2, skipped := 0,
       failed := 0, total := 2, duration_ms := 0 } : TaskProgress).total =
      invariantTargets.length := by
  refine ⟨by decide, by decide, by decide, ?_⟩
  exact (perform_module_state_update_publication_invariant "reset" (fun _ => 0)
    invariantTargets _ (by decide)).2.2

/-- The canonical event trace of a run in which every target comes back
with a classified status: the targets are visited one at a time in
enumeration order, and right after each visit the snapshot of the updated
counters is published, before the next visit starts. -/
def cleanTrace (an : String) (num_total : Nat) (dur : Nat → Nat) :
    List TargetBehavior → Counters → List RunEvent
  | [], _ => []
  | t :: rest, c =>
    let c2 := statusCounters c (retStatus t.result)
    RunEvent.visit c.attempted ::
      RunEvent.publish (get_task_progress an num_total dur c2) ::
        cleanTrace an num_total dur rest c2

/-- When every remaining target returns a classified status, the loop
produces exactly the canonical trace. -/
theorem moduleUpdateGo_cleanTrace (an : String) (num_total : Nat) (dur : Nat → Nat) :
    ∀ (rest : List TargetBehavior) (c : Counters) (live : Nat) (last : TaskProgress),
      rest.all classifiedRet = true →
      (moduleUpdateGo an num_total dur rest c live last).1 =
        cleanTrace an num_total dur rest c := by
  intro rest
  induction rest with
  | nil =>
    intro c live last _h
    simp [moduleUpdateGo, cleanTrace]
  | cons t ts ih =>
    intro c live last h
    simp only [List.all_cons, Bool.and_eq_true] at h
    obtain ⟨ht, hts⟩ := h
    cases hres : t.result with
    | raise e => simp [classifiedRet, hres] at ht
    | ret s =>
      have hc : classified s = true := by simpa [classifiedRet, hres] using ht
      simp only [moduleUpdateGo, cleanTrace, hres, hc, if_pos, retStatus]
      rw [ih _ _ _ hts]

/-- The visits of the canonical trace are the consecutive indices starting
at the incoming attempted count. -/
theorem cleanTrace_visits (an : String) (num_total : Nat) (dur : Nat → Nat) :
    ∀ (rest : List TargetBehavior) (c : Counters),
      visits (cleanTrace an num_total dur rest c) = List.range' c.attempted rest.length := by
  intro rest
  induction rest with
  | nil => intro c; simp [cleanTrace, visits, List.range']
  | cons t ts ih =>
    intro c
    simp only [cleanTrace, visits, List.filterMap_cons, List.length_cons, List.range']
    rw [← statusCounters_attempted c (retStatus t.result)]
    simpa [visits] using ih (statusCounters c (retStatus t.result))

/-- The attempted counts of the snapshots published by the canonical trace
are the consecutive integers that follow the incoming attempted count. -/
theorem cleanTrace_publication_attempts (an : String) (num_total : Nat) (dur : Nat → Nat) :
    ∀ (rest : List TargetBehavior) (c : Counters),
      (publications (cleanTrace an num_total dur rest c)).map TaskProgress.attempted =
        List.range' (c.attempted + 1) rest.length := by
  intro rest
  induction rest with
  | nil => intro c; simp [cleanTrace, publications, List.range']
  | cons t ts ih =>
    intro c
    simp only [cleanTrace, publications, List.filterMap_cons, List.length_cons,
      List.range', List.map_cons]
    congr 1
    · simp [get_task_progress, statusCounters_attempted]
    · simpa [publications, statusCounters_attempted] using
        ih (statusCounters c (retStatus t.result))

/-- C8: over a run in which every target is classified, the event trace is
the initial publication followed by the canonical alternation of visit
and publish events (so target k+1 is never visited before the snapshot of
target k is published, and targets are processed one at a time in
enumeration order); the published attempted counts are exactly
0, 1, ..., N, strictly increasing by one per target, and the visited
indices are exactly 0, ..., N-1 in order. -/
theorem perform_module_state_update_publication_order (an : String) (dur : Nat → Nat)
    (targets : List TargetBehavior) (h : targets.all classifiedRet = true) :
    (perform_module_state_update_loop an dur targets).1 =
      RunEvent.publish (get_task_progress an targets.length dur
          { attempted := 0, succeeded := 0, skipped := 0, failed := 0 }) ::
        cleanTrace an targets.length dur targets
          { attempted := 0, succeeded := 0, skipped := 0, failed := 0 } ∧
    (publications (perform_module_state_update_loop an dur targets).1).map
        TaskProgress.attempted = List.range (targets.length + 1) ∧
    visits (perform_module_state_update_loop an dur targets).1 =
      List.range targets.length := by
  have htrace := moduleUpdateGo_cleanTrace an targets.length dur targets
    { attempted := 0, succeeded := 0, skipped := 0, failed := 0 }
    targets.length
    (get_task_progress an targets.length dur
      { attempted := 0, succeeded := 0, skipped := 0, failed := 0 }) h
  refine ⟨?_, ?_, ?_⟩
  · unfold perform_module_state_update_loop
    simpa using htrace
  · unfold perform_module_state_update_loop
    simp only [publications, List.filterMap_cons]
    rw [htrace]
    rw [List.range_eq_range' (targets.length + 1)]
    simp only [List.range', List.map_cons]
    congr 1
    simpa [publications] using
      cleanTrace_publication_attempts an targets.length dur targets
        { attempted := 0, succeeded := 0, skipped := 0, failed := 0 }
  · unfold perform_module_state_update_loop
    simp only [visits, List.filterMap_cons]
    rw [htrace]
    rw [List.range_eq_range' targets.length]
    simpa [visits] using cleanTrace_visits an targets.length dur targets
      { attempted := 0, succeeded := 0, skipped := 0, failed := 0 }

/-- Concrete targets for the ordering witness: one succeeded and one
skipped target. -/
def orderTargets : List TargetBehavior :=
  [{ result := UpdateResult.ret "succeeded", deletesRow := false },
   { result := UpdateResult.ret "skipped", deletesRow := false }]

/-- Witness for C8: on the concrete two-target run the published attempted
counts are zero, one, two and the visits are zero then one. -/
theorem perform_module_state_update_publication_order_witness :
    orderTargets.all classifiedRet = true ∧
    (publications (perform_module_state_update_loop "reset" (fun _ => 0) orderTargets).1).map
        TaskProgress.attempted = List.range 3 ∧
    visits (perform_module_state_update_loop "reset" (fun _ => 0) orderTargets).1 =
      List.range 2 :=
  ⟨by decide,
    (perform_module_state_update_publication_order "reset" (fun _ => 0) orderTargets
      (by decide)).2.1,
    (perform_module_state_update_publication_order "reset" (fun _ => 0) orderTargets
      (by decide)).2.2⟩

/-- If the targets ahead are some classified ones followed by one whose
update function returns an unclassified status, the loop visits exactly
the classified ones and the offending target, then stops with the
UpdateProblemModuleStateError naming the unexpected status; nothing after
the offending target is visited. -/
theorem moduleUpdateGo_unexpected_status (an : String) (num_total : Nat) (dur : Nat → Nat)
    (t : TargetBehavior) (post : List TargetBehavior) (s : String)
    (h2 : t.result = UpdateResult.ret s) (h3 : classified s = false) :
    ∀ (pre : List TargetBehavior) (c : Counters) (live : Nat) (last : TaskProgress),
      pre.all classifiedRet = true →
      visits (moduleUpdateGo an num_total dur (pre ++ t :: post) c live last).1 =
        List.range' c.attempted (pre.length + 1) ∧
      (moduleUpdateGo an num_total dur (pre ++ t :: post) c live last).2.2 =
        Except.error (PyErr.updateProblemModuleStateError
          ("Unexpected update_status returned: " ++ s)) := by
  intro pre
  induction pre with
  | nil =>
    intro c live last _h
    simp [moduleUpdateGo, h2, h3, visits, List.range']
  | cons u us ih =>
    intro c live last h
    simp only [List.all_cons, Bool.and_eq_true] at h
    obtain ⟨hu, hus⟩ := h
    cases hres : u.result with
    | raise e => simp [classifiedRet, hres] at hu
    | ret su =>
      have hc : classified su = true := by simpa [classifiedRet, hres] using hu
      have step := ih (statusCounters c su)
        (if u.deletesRow = true then live - 1 else live)
        (get_task_progress an num_total dur (statusCounters c su)) hus
      simp only [List.cons_append, moduleUpdateGo, hres, hc, if_pos] at step ⊢
      refine ⟨?_, step.2⟩
      simp only [visits, List.filterMap_cons, List.length_cons, List.range']
      rw [← statusCounters_attempted c su]
      simpa [visits] using step.1

/-- C6: if the update function returns a value outside the three
classified statuses for some target (all earlier targets being
classified), the runner raises UpdateProblemModuleStateError on that
target: the visited indices are exactly those of the earlier targets and
of the offending one, no later target is visited, and the run result is
the error naming the unexpected status. -/
theorem perform_module_state_update_unexpected_status (an : String) (dur : Nat → Nat)
    (pre : List TargetBehavior) (t : TargetBehavior) (post : List TargetBehavior)
    (s : String) (h1 : pre.all classifiedRet = true)
    (h2 : t.result = UpdateResult.ret s) (h3 : classified s = false) :
    visits (perform_module_state_update_loop an dur (pre ++ t :: post)).1 =
      List.range (pre.length + 1) ∧
    (perform_module_state_update_loop an dur (pre ++ t :: post)).2.2 =
      Except.error (PyErr.updateProblemModuleStateError
        ("Unexpected update_status returned: " ++ s)) := by
  have step := moduleUpdateGo_unexpected_status an (pre ++ t :: post).length dur t post s
    h2 h3 pre { attempted := 0, succeeded := 0, skipped := 0, failed := 0 }
    (pre ++ t :: post).length
    (get_task_progress an (pre ++ t :: post).length dur
      { attempted := 0, succeeded := 0, skipped := 0, failed := 0 }) h1
  refine ⟨?_, ?_⟩
  · unfold perform_module_state_update_loop
    simp only [visits, List.filterMap_cons]
    rw [List.range_eq_range' (pre.length + 1)]
    simpa [visits] using step.1
  · unfold perform_module_state_update_loop
    simpa using step.2

/-- Concrete targets for the unexpected-status witness: one succeeded
target, then one returning the unclassified status bogus, then one more
target that must never be visited. -/
def unexpectedPre : List TargetBehavior :=
  [{ result := UpdateResult.ret "succeeded", deletesRow := false }]

/-- The offending target returning the unclassified status bogus. -/
def unexpectedTarget : TargetBehavior :=
  { result := UpdateResult.ret "bogus", deletesRow := false }

/-- A trailing target that the aborted run must never visit. -/
def unexpectedPost : List TargetBehavior :=
  [{ result := UpdateResult.ret "failed", deletesRow := false }]

/-- Witness for C6: on the concrete run the visits stop at index one (the
offending target) and the result is the UpdateProblemModuleStateError
naming the status bogus; the third target is never visited. -/
theorem perform_module_state_update_unexpected_status_witness :
    unexpectedPre.all classifiedRet = true ∧
    unexpectedTarget.result = UpdateResult.ret "bogus" ∧
    classified "bogus" = false ∧
    visits (perform_module_state_update_loop "reset" (fun _ => 0)
        (unexpectedPre ++ unexpectedTarget :: unexpectedPost)).1 = List.range 2 ∧
    (perform_module_state_update_loop "reset" (fun _ => 0)
        (unexpectedPre ++ unexpectedTarget :: unexpectedPost)).2.2 =
      Except.error (PyErr.updateProblemModuleStateError
        ("Unexpected update_status returned: " ++ "bogus")) :=
  ⟨by decide, by decide, by decide,
    (perform_module_state_update_unexpected_status "reset" (fun _ => 0)
      unexpectedPre unexpectedTarget unexpectedPost "bogus"
      (by decide) (by decide) (by decide)).1,
    (perform_module_state_update_unexpected_status "reset" (fun _ => 0)
      unexpectedPre unexpectedTarget unexpectedPost "bogus"
      (by decide) (by decide) (by decide)).2⟩

/-- Truncation really bounds the length of the stored traceback. -/
theorem truncateString_length_le (n : Nat) (s : String) :
    (truncateString n s).length ≤ n := by
  show (s.data.take n).length ≤ n
  rw [List.length_take]
  exact min_le_left _ _

/-- C2: whenever the run result of run_update_task is an exception (one
escaping the identity check or the visitor run), the saved record carries
the FAILURE state and a failure output holding the exception kind, its
message, and its traceback truncated to the bound; the exception the
visitor raised is re-raised unchanged; and the progress dict is returned
exactly when no such exception occurred. -/
theorem run_update_task_failure_contract (req : String) (entry : InstructorTaskRecord)
    (visit : String → Option String → Option String →
      List RunEvent × Nat × Except PyErr TaskProgress) :
    (∀ e : PyErr, (run_update_task req entry visit).2.2 = Except.error e →
      (run_update_task req entry visit).1.task_state = FAILURE ∧
      (run_update_task req entry visit).1.task_output =
        TaskOutput.failure e.kind e.message
          (truncateString TASK_OUTPUT_TRACEBACK_BOUND e.traceback) ∧
      (truncateString TASK_OUTPUT_TRACEBACK_BOUND e.traceback).length ≤
        TASK_OUTPUT_TRACEBACK_BOUND) ∧
    (entry.task_id = req → ∀ e : PyErr,
      (visit entry.course_id entry.problem_url entry.student).2.2 = Except.error e →
      (run_update_task req entry visit).2.2 = Except.error e) ∧
    (∀ p : TaskProgress, (run_update_task req entry visit).2.2 = Except.ok p ↔
      (entry.task_id = req ∧
        (visit entry.course_id entry.problem_url entry.student).2.2 = Except.ok p)) := by
  by_cases h : entry.task_id = req
  · rcases hv : visit entry.course_id entry.problem_url entry.student with ⟨evs, live, res⟩
    cases res with
    | error e =>
      have hrun : run_update_task req entry visit =
          ({ entry with
              task_output := create_output_for_failure e
              task_state := FAILURE },
            evs, Except.error e) := by
        simp [run_update_task, h, hv]
      refine ⟨?_, ?_, ?_⟩
      · intro e2 he2
        rw [hrun] at he2
        simp only [Except.error.injEq] at he2
        subst he2
        exact ⟨by simp [hrun], by simp [hrun, create_output_for_failure],
          truncateString_length_le _ _⟩
      · intro _ e2 he2
        simp at he2
        subst he2
        simp [hrun]
      · intro p
        rw [hrun]
        simp [h, hv]
    | ok p0 =>
      have hrun : run_update_task req entry visit =
          ({ entry with
              task_output := create_output_for_success p0
              task_state := SUCCESS },
            evs, Except.ok p0) := by
        simp [run_update_task, h, hv]
      refine ⟨?_, ?_, ?_⟩
      · intro e2 he2
        rw [hrun] at he2
        simp at he2
      · intro _ e2 he2
        simp at he2
      · intro p
        rw [hrun]
        simp [h, hv]
  · have hrun : run_update_task req entry visit =
        ({ entry with
            task_output := create_output_for_failure (PyErr.updateProblemModuleStateError
              (mismatch_message req (task_info_string entry)))
            task_state := FAILURE },
          [], Except.error (PyErr.updateProblemModuleStateError
            (mismatch_message req (task_info_string entry)))) := by
      simp [run_update_task, h]
    refine ⟨?_, ?_, ?_⟩
    · intro e2 he2
      rw [hrun] at he2
      simp only [Except.error.injEq] at he2
      subst he2
      exact ⟨by simp [hrun], by simp [hrun, create_output_for_failure],
        truncateString_length_le _ _⟩
    · intro hcontra
      exact absurd hcontra h
    · intro p
      rw [hrun]
      simp [h]

/-- Concrete record for the failure-contract witness. -/
def failEntry : InstructorTaskRecord :=
  { task_id := "task-5"
    course_id := "course-5"
    problem_url := some "url-5"
    student := none
    task_state := PROGRESS
    task_output := TaskOutput.raw "{}"
    subtasks := [] }

/-- Concrete visitor pipeline that raises a ValueError. -/
def failVisit : String → Option String → Option String →
    List RunEvent × Nat × Except PyErr TaskProgress :=
  fun _ _ _ =>
    ([RunEvent.visit 0], 1,
      Except.error (PyErr.exc { kind := "ValueError", message := "boom", traceback := "tb" }))

/-- Witness for C2: on the concrete failing run, the record is saved in
FAILURE with the failure output of the raised ValueError. -/
theorem run_update_task_failure_contract_witness :
    (run_update_task "task-5" failEntry failVisit).1.task_state = FAILURE ∧
    (run_update_task "task-5" failEntry failVisit).1.task_output =
      TaskOutput.failure
        (PyErr.exc { kind := "ValueError", message := "boom", traceback := "tb" }).kind
        (PyErr.exc { kind := "ValueError", message := "boom", traceback := "tb" }).message
        (truncateString TASK_OUTPUT_TRACEBACK_BOUND
          (PyErr.exc { kind := "ValueError", message := "boom", traceback := "tb" }).traceback) :=
  ⟨((run_update_task_failure_contract "task-5" failEntry failVisit).1
      (PyErr.exc { kind := "ValueError", message := "boom", traceback := "tb" }) rfl).1,
    ((run_update_task_failure_contract "task-5" failEntry failVisit).1
      (PyErr.exc { kind := "ValueError", message := "boom", traceback := "tb" }) rfl).2.1⟩

/-- A string that appears as the middle of a concatenation appears, as a
character sequence, inside the concatenated string. -/
theorem infix_of_append_eq (a b c s : String) (h : a ++ (b ++ c) = s) :
    List.IsInfix b.data s.data := by
  refine ⟨a.data, c.data, ?_⟩
  rw [← h]
  simp [List.append_assoc]

/-- The mismatch message contains the executing task id. -/
theorem mismatch_message_contains_actual (actual_id task_info : String) :
    List.IsInfix actual_id.data (mismatch_message actual_id task_info).data := by
  refine infix_of_append_eq ("Requested task did not match actual task " ++ "\"")
    actual_id ("\"" ++ (": " ++ task_info)) _ ?_
  apply String.ext
  simp [mismatch_message, quoted, List.append_assoc]

/-- The mismatch message contains the claimed task id of the entry. -/
theorem mismatch_message_contains_claimed (actual_id : String)
    (entry : InstructorTaskRecord) :
    List.IsInfix entry.task_id.data
      (mismatch_message actual_id (task_info_string entry)).data := by
  refine infix_of_append_eq
    ("Requested task did not match actual task " ++ quoted actual_id ++ ": "
      ++ ("task " ++ "\""))
    entry.task_id
    ("\"" ++ (": course " ++ quoted entry.course_id ++ " problem "
      ++ quoted (optStr entry.problem_url))) _ ?_
  apply String.ext
  simp [mismatch_message, task_info_string, quoted, List.append_assoc]

/-- C3: when the executing run identifier differs from the claimed task id
of the loaded record, run_update_task aborts before the visitor pipeline
runs: the run produces no events (zero targets visited, no per-target
progress recorded), the saved record is in FAILURE, and the raised
failure message contains both the executing and the claimed identifier. -/
theorem run_update_task_identity_mismatch (req : String) (entry : InstructorTaskRecord)
    (visit : String → Option String → Option String →
      List RunEvent × Nat × Except PyErr TaskProgress)
    (h : entry.task_id ≠ req) :
    (run_update_task req entry visit).2.1 = [] ∧
    (run_update_task req entry visit).1.task_state = FAILURE ∧
    (run_update_task req entry visit).2.2 =
      Except.error (PyErr.updateProblemModuleStateError
        (mismatch_message req (task_info_string entry))) ∧
    List.IsInfix req.data (mismatch_message req (task_info_string entry)).data ∧
    List.IsInfix entry.task_id.data
      (mismatch_message req (task_info_string entry)).data := by
  refine ⟨?_, ?_, ?_, mismatch_message_contains_actual req (task_info_string entry),
    mismatch_message_contains_claimed req entry⟩
  · simp [run_update_task, h]
  · simp [run_update_task, h]
  · simp [run_update_task, h]

/-- Concrete record for the identity-mismatch witness: the record claims
task id task-1 while the executing task is task-2. -/
def mismatchEntry : InstructorTaskRecord :=
  { task_id := "task-1"
    course_id := "course-7"
    problem_url := some "url-7"
    student := none
    task_state := PROGRESS
    task_output := TaskOutput.raw "{}"
    subtasks := [] }

/-- A visitor pipeline that would visit one target if it ever ran. -/
def mismatchVisit : String → Option String → Option String →
    List RunEvent × Nat × Except PyErr TaskProgress :=
  fun _ _ _ =>
    ([RunEvent.visit 0], 1,
      Except.ok
        { action_name := "reset"
          attempted := 1
          succeeded := 1
          skipped := 0
          failed := 0
          total := 1
          duration_ms := 3 })

/-- Witness for C3: with executing id task-2 against claimed id task-1,
the run records no events and the saved record is in FAILURE. -/
theorem run_update_task_identity_mismatch_witness :
    (run_update_task "task-2" mismatchEntry mismatchVisit).2.1 = [] ∧
    (run_update_task "task-2" mismatchEntry mismatchVisit).1.task_state = FAILURE :=
  ⟨(run_update_task_identity_mismatch "task-2" mismatchEntry mismatchVisit
      (by decide)).1,
    (run_update_task_identity_mismatch "task-2" mismatchEntry mismatchVisit
      (by decide)).2.1⟩

/-- C5 (amended): run_update_task performs no terminal-state check: its
run result and the state and output it writes to the record do not depend
on the prior task_state or task_output of the record, so invoking it on a
record already in SUCCESS or FAILURE re-executes the whole pipeline and
overwrites the record like any other run. -/
theorem run_update_task_ignores_prior_state (req : String) (entry : InstructorTaskRecord)
    (visit : String → Option String → Option String →
      List RunEvent × Nat × Except PyErr TaskProgress)
    (s : String) (o : TaskOutput) :
    (run_update_task req { entry with task_state := s, task_output := o } visit).1.task_state
        = (run_update_task req entry visit).1.task_state ∧
    (run_update_task req { entry with task_state := s, task_output := o } visit).1.task_output
        = (run_update_task req entry visit).1.task_output ∧
    (run_update_task req { entry with task_state := s, task_output := o } visit).2
        = (run_update_task req entry visit).2 := by
  by_cases h : entry.task_id = req
  · rcases hv : visit entry.course_id entry.problem_url entry.student with ⟨evs, live, res⟩
    cases res with
    | error e => simp [run_update_task, h, hv]
    | ok p0 => simp [run_update_task, h, hv]
  · simp [run_update_task, h, task_info_string]

/-- First run of the rerun counterexample: the record starts in PROGRESS
and the visitor succeeds. -/
def rerunEntry : InstructorTaskRecord :=
  { task_id := "task-1"
    course_id := "course-1"
    problem_url := some "url-1"
    student := none
    task_state := PROGRESS
    task_output := TaskOutput.raw "{}"
    subtasks := [] }

/-- Visitor pipeline of the rerun counterexample: visits one target and
returns a progress dict. -/
def rerunVisit : String → Option String → Option String →
    List RunEvent × Nat × Except PyErr TaskProgress :=
  fun _ _ _ =>
    ([RunEvent.visit 0], 1,
      Except.ok
        { action_name := "reset"
          attempted := 1
          succeeded := 1
          skipped := 0
          failed := 0
          total := 1
          duration_ms := 4 })

/-- Counterexample for C5: after a first run leaves the record in the
terminal state SUCCESS, running the pipeline again with the same entry
re-executes the visitor (its event trace is non-empty), and running it
again under a different executing task id rewrites the terminal record to
FAILURE; so a second run does re-execute the update and does change the
record's state. -/
theorem run_update_task_rerun_counterexample :
    (run_update_task "task-1" rerunEntry rerunVisit).1.task_state = SUCCESS ∧
    (run_update_task "task-1" (run_update_task "task-1" rerunEntry rerunVisit).1
        rerunVisit).2.1 ≠ [] ∧
    (run_update_task "task-2" (run_update_task "task-1" rerunEntry rerunVisit).1
        rerunVisit).1.task_state = FAILURE ∧
    FAILURE ≠ SUCCESS := by
  refine ⟨rfl, ?_, rfl, by decide⟩
  decide

end TasksHelper
